import Mathlib

/-!
Verification of the upload lambda handler
(`src/upload-lambda/src/main/upload-function.py`).

The Python source is shallowly embedded: pure helpers become Lean
functions; the effectful steps of `lambda_handler` (DynamoDB writes, the
ffmpeg subprocess, filesystem writes, the S3 upload, scratch-directory
cleanup) are driven by an explicit oracle describing the outcome of each
external call, and the handler returns, besides the HTTP response, a
trace of the effects it performed together with the final state of the
upload record.  Bytes are modelled as natural numbers below 256; machine
strings are Lean strings (Python `str.lower` is modelled on ASCII, where
the two agree).
-/

namespace UploadLambda

/-- ASCII lowercasing of one character (models Python `str.lower` on the
ASCII range, which is all the whitelist comparison ever inspects). -/
def pyLowerChar (c : Char) : Char :=
  if 65 ≤ c.toNat ∧ c.toNat ≤ 90 then Char.ofNat (c.toNat + 32) else c

/-- ASCII lowercasing of a string (models Python `str.lower`). -/
def pyLower (s : String) : String :=
  String.mk (s.data.map pyLowerChar)

/-- Python truthiness of an optional string: `None` and `''` are falsy. -/
def pyTruthyOpt : Option String → Bool
  | none => false
  | some s => !(s == "")

/-- Python falsiness of an optional string (`if not x`). -/
def pyFalsyOpt : Option String → Bool
  | none => true
  | some s => s == ""

/-- Models `bytes.decode('utf-8')` for single-byte characters (the email
field of a multipart part); on ASCII content this agrees with Python. -/
def bytesToText (bs : List Nat) : String :=
  String.mk (bs.map (fun b => Char.ofNat b))

/-- Models `os.path.basename`: the part of the path after the last `/`. -/
def basename (p : String) : String :=
  String.mk ((p.data.reverse.takeWhile (fun c => !(c == '/'))).reverse)

/-- Splits a character list at every occurrence of `sep` (the pieces do
not contain `sep`; empty pieces are kept). -/
def splitChars (sep : Char) : List Char → List (List Char)
  | [] => [[]]
  | c :: rest =>
    let r := splitChars sep rest
    if c == sep then [] :: r
    else
      match r with
      | h :: t => (c :: h) :: t
      | [] => [[c]]

/-- Models `pathlib.PurePosixPath(s).name`: the last path component,
with empty and `.` components dropped. -/
def pathName (s : String) : String :=
  String.mk
    (((splitChars '/' s.data).filter
        (fun c => !(c.isEmpty) && !(c == ['.']))).getLastD [])

/-- Models `pathlib.PurePosixPath(s).suffix`: `name[i:]` where `i` is the
index of the last dot of the name, provided `0 < i < len(name) - 1`,
and the empty string otherwise. -/
def pathSuffix (s : String) : String :=
  let cs := (pathName s).data
  let rev := cs.reverse
  let k := rev.findIdx (fun c => c == '.')
  if 1 ≤ k ∧ k + 1 < rev.length then
    String.mk (cs.drop (cs.length - 1 - k))
  else ""

/-- Models `validar_extensao` (source lines 144-146): lowercased
`Path(...).suffix` membership in the whitelist set. -/
def validar_extensao (nome_arquivo : String) : Bool :=
  let ext := pyLower (pathSuffix nome_arquivo)
  ext == ".mp4" || ext == ".avi" || ext == ".mov" || ext == ".mkv" ||
    ext == ".wmv" || ext == ".flv" || ext == ".webm"

/-! ## Base64 (models Python `base64.b64encode` / lenient `b64decode`) -/

/-- The standard base64 alphabet, as a function from sextet values. -/
def b64Char (i : Nat) : Char :=
  if i < 26 then Char.ofNat (65 + i)
  else if i < 52 then Char.ofNat (97 + (i - 26))
  else if i < 62 then Char.ofNat (48 + (i - 52))
  else if i = 62 then '+'
  else '/'

/-- Sextet value of an alphabet character, `none` outside the alphabet. -/
def b64Val (c : Char) : Option Nat :=
  let n := c.toNat
  if 65 ≤ n ∧ n ≤ 90 then some (n - 65)
  else if 97 ≤ n ∧ n ≤ 122 then some (n - 97 + 26)
  else if 48 ≤ n ∧ n ≤ 57 then some (n - 48 + 52)
  else if c = '+' then some 62
  else if c = '/' then some 63
  else none

/-- The bytes of a final partial quad completed by padding: two sextets
give one byte, three give two (any other shape is unreachable at the
call site). -/
def emitFinal : List Nat → List Nat
  | [v0, v1] => [v0 * 4 + v1 / 16]
  | [v0, v1, v2] => [v0 * 4 + v1 / 16, (v1 % 16) * 16 + v2 / 4]
  | _ => []

/-- Models `base64.b64encode`: three bytes become four alphabet
characters; a final group of one or two bytes is padded with `=`. -/
def b64EncodeChunks : List Nat → List Char
  | [] => []
  | [b0] =>
    let n := b0 * 65536
    [b64Char (n / 262144 % 64), b64Char (n / 4096 % 64), '=', '=']
  | [b0, b1] =>
    let n := b0 * 65536 + b1 * 256
    [b64Char (n / 262144 % 64), b64Char (n / 4096 % 64), b64Char (n / 64 % 64), '=']
  | b0 :: b1 :: b2 :: rest =>
    let n := b0 * 65536 + b1 * 256 + b2
    b64Char (n / 262144 % 64) :: b64Char (n / 4096 % 64) ::
      b64Char (n / 64 % 64) :: b64Char (n % 64) :: b64EncodeChunks rest

/-- The encoded form as a string, `base64.b64encode(bs).decode()`. -/
def b64Encode (bs : List Nat) : String :=
  String.mk (b64EncodeChunks bs)

/-- The scanning loop of CPython's non-strict `binascii.a2b_base64`,
the engine of the default `base64.b64decode`.  `quad` holds the sextets
of the current group (at most three) and `pads` counts the pad
characters seen since the last data character.  A data character resets
`pads`, extends the quad, and on the fourth sextet emits three bytes; a
character outside the alphabet is discarded (without touching `pads`);
a `=` with a quad of two or three sextets and enough accumulated pads
completes the quad, emits its final bytes and stops, ignoring the rest
of the input, while any other `=` is skipped and counted; input ending
with a non-empty quad is an error (incorrect padding / data length
1 mod 4). -/
def b64DecodeLoop : List Char → List Nat → Nat → Option (List Nat)
  | [], quad, _ => if quad.isEmpty then some [] else none
  | c :: rest, quad, pads =>
    if c = '=' then
      if 2 ≤ quad.length ∧ 4 ≤ quad.length + pads + 1 then
        some (emitFinal quad)
      else b64DecodeLoop rest quad (pads + 1)
    else
      match b64Val c with
      | none => b64DecodeLoop rest quad pads
      | some v =>
        match quad with
        | [v0, v1, v2] =>
          (b64DecodeLoop rest [] 0).map
            (fun t => (v0 * 4 + v1 / 16) :: ((v1 % 16) * 16 + v2 / 4) ::
              ((v2 % 4) * 64 + v) :: t)
        | _ => b64DecodeLoop rest (quad ++ [v]) 0

/-- Models Python `base64.b64decode` in its default lenient mode
(`validate=False`), as implemented by non-strict `a2b_base64`. -/
def b64Decode (s : String) : Option (List Nat) :=
  b64DecodeLoop s.data [] 0

/-! ## Request parsing (`extrair_dados_requisicao`, source lines 96-142) -/

/-- One decoded multipart part, as produced by the stdlib multipart
decoder the source feeds `BytesParser`: the `name` parameter of its
content-disposition header, its filename attribute, and its decoded
payload bytes. -/
structure Part where
  name : Option String
  filename : Option String
  payload : List Nat
  deriving DecidableEq

/-- The parsed JSON body when it is an object, restricted to the three
string fields the source reads with `body.get`; a missing field is
`none`. -/
structure JsonBody where
  email : Option String
  filename : Option String
  arquivo : Option String
  deriving DecidableEq

/-- What `json.loads` can successfully return: a JSON object, or any
non-object value (`null`, a list, a number, a string, a boolean) — on
which the subsequent `body.get` attribute lookup raises. -/
inductive JsonView
  | obj (body : JsonBody)
  | nonObject
  deriving DecidableEq

/-- The handler event.  `contentType` is `headers['content-type']` after
key lowercasing; `jsonView` is the result of `json.loads` on the raw
body (`none` when it raises); `multipartView` is the part list produced
by the stdlib multipart decoder on the (base64-decoded when flagged)
raw body (`none` when that decode raises).  Which view is consulted is
decided, as in the source, by the content type alone. -/
structure Event where
  contentType : Option String
  jsonView : Option JsonView
  multipartView : Option (List Part)
  deriving DecidableEq

/-- The four `ValueError`s the parser can raise; all of them surface as
a 400 "malformed request" response. -/
inductive ParseError
  | multipartParseFailure
  | invalidJson
  | invalidBase64
  | missingParams
  deriving DecidableEq

/-- How the parser can fail: with one of the `ValueError`s above, which
`lambda_handler` catches and turns into a 400 (line 44), or with the
`AttributeError` raised by `body.get` when `json.loads` produced a
non-object — an exception the `except ValueError` does not catch, so it
escapes `lambda_handler` entirely. -/
inductive ParseFailure
  | malformed (e : ParseError)
  | attributeError
  deriving DecidableEq

/-- The message each `ValueError` carries (source lines 113, 128, 137, 140). -/
def parseErrorMessage : ParseError → String
  | .multipartParseFailure => "Erro ao parsear multipart/form-data"
  | .invalidJson => "Corpo inválido: esperado JSON ou multipart/form-data"
  | .invalidBase64 => "Arquivo base64 inválido"
  | .missingParams => "Parâmetros ausentes: email, filename e arquivo são obrigatórios"

/-- The three mutable locals of the parser loop (source lines 100-102). -/
structure ExtractAcc where
  email : Option String
  nomeArquivo : Option String
  arquivoBytes : Option (List Nat)
  deriving DecidableEq

/-- One iteration of the part loop (source lines 115-123): a part with a
truthy filename sets the filename and payload; otherwise a part named
`email` sets the email. -/
def processPart (acc : ExtractAcc) (p : Part) : ExtractAcc :=
  if pyTruthyOpt p.filename then
    { acc with nomeArquivo := p.filename, arquivoBytes := some p.payload }
  else if p.name == some "email" then
    { acc with email := some (bytesToText p.payload) }
  else acc

/-- The final required-fields check (source lines 139-142), with Python
truthiness: `None`, the empty string and the empty byte string all fail. -/
def checkRequired (email nome : Option String) (bytes : Option (List Nat)) :
    Except ParseFailure (String × String × List Nat) :=
  match email, nome, bytes with
  | some e, some n, some bs =>
    if e ≠ "" ∧ n ≠ "" ∧ bs ≠ [] then Except.ok (e, n, bs)
    else Except.error (ParseFailure.malformed ParseError.missingParams)
  | _, _, _ => Except.error (ParseFailure.malformed ParseError.missingParams)

/-- Whether `sub` occurs at the head of `l`. -/
def leadsList : List Char → List Char → Bool
  | [], _ => true
  | _ :: _, [] => false
  | c :: cs, d :: ds => c == d && leadsList cs ds

/-- Whether `sub` occurs contiguously somewhere inside `l`
(models the Python `in` test on strings). -/
def occursIn (sub : List Char) : List Char → Bool
  | [] => leadsList sub []
  | d :: ds => leadsList sub (d :: ds) || occursIn sub ds

/-- Whether the declared content type selects the multipart branch
(source line 104: `'multipart/form-data' in content_type`). -/
def isMultipartCT : Option String → Bool
  | none => false
  | some s => occursIn "multipart/form-data".data s.data

/-- Models `extrair_dados_requisicao` (source lines 96-142).  A
non-multipart body that `json.loads` turns into a non-object makes
`body.get('email')` (line 130) raise `AttributeError`, which is not a
`ValueError` and therefore not a malformed-request failure. -/
def extrair_dados_requisicao (ev : Event) :
    Except ParseFailure (String × String × List Nat) :=
  if isMultipartCT ev.contentType then
    match ev.multipartView with
    | none => Except.error (ParseFailure.malformed ParseError.multipartParseFailure)
    | some parts =>
      let acc := parts.foldl processPart ⟨none, none, none⟩
      checkRequired acc.email acc.nomeArquivo acc.arquivoBytes
  else
    match ev.jsonView with
    | none => Except.error (ParseFailure.malformed ParseError.invalidJson)
    | some JsonView.nonObject => Except.error ParseFailure.attributeError
    | some (JsonView.obj body) =>
      match body.arquivo with
      | some s =>
        if s == "" then checkRequired body.email body.filename none
        else
          match b64Decode s with
          | some bs => checkRequired body.email body.filename (some bs)
          | none => Except.error (ParseFailure.malformed ParseError.invalidBase64)
      | none => checkRequired body.email body.filename none

/-! ## String ordering and sorting (models Python `sorted` on strings) -/

/-- Lexicographic comparison of character lists by code point, the order
Python string comparison uses. -/
def charListLe : List Char → List Char → Bool
  | [], _ => true
  | _ :: _, [] => false
  | a :: as, b :: bs =>
    if a.toNat < b.toNat then true
    else if b.toNat < a.toNat then false
    else charListLe as bs

/-- Boolean string comparison by code points. -/
def strLe (a b : String) : Bool :=
  charListLe a.data b.data

/-- The comparison as a relation, for use with the sorting library. -/
def strLeP (a b : String) : Prop :=
  strLe a b = true

instance : DecidableRel strLeP := fun a b => by
  unfold strLeP; exact inferInstance

/-- Models Python `sorted` on a list of strings: a stable sort by the
lexicographic code-point order. -/
def pySorted (l : List String) : List String :=
  List.insertionSort strLeP l

/-! ## Frame extraction (`extrair_frames`, source lines 162-187) -/

/-- The decimal digit character of `d` (for `d < 10`). -/
def digitChar (d : Nat) : Char :=
  Char.ofNat (48 + d)

/-- Models the C `%04d` conversion used in the frame pattern
`frame_%04d.png`: the decimal representation of `n`, zero-padded on the
left to a minimum width of four. -/
def pad4 (n : Nat) : String :=
  if n < 10000 then
    String.mk [digitChar (n / 1000), digitChar (n / 100 % 10),
      digitChar (n / 10 % 10), digitChar (n % 10)]
  else toString n

/-- The file name ffmpeg gives the `k`-th sampled frame. -/
def frameFileName (k : Nat) : String :=
  "frame_" ++ pad4 k ++ ".png"

/-- Models the frames directory path, `os.path.join(tmp_dir, 'frames')`. -/
def framesDirOf (tmpDir : String) : String :=
  tmpDir ++ "/frames"

/-- The full path of the `k`-th frame file inside the scratch directory. -/
def framePath (tmpDir : String) (k : Nat) : String :=
  framesDirOf tmpDir ++ "/" ++ frameFileName k

/-- The observable outcome of the ffmpeg subprocess: its exit code, its
diagnostic output (already decoded, `errors='ignore'`), and the sequence
numbers of the PNG frame files it wrote into the fresh `frames`
directory. -/
structure FfmpegOutcome where
  returncode : Int
  stderrText : String
  producedFrames : List Nat
  deriving DecidableEq

/-- Models `extrair_frames` (source lines 175-187).  The first argument
is the outcome of `subprocess.run` (`Except.error` when the invocation
itself raises, e.g. a missing binary).  On a non-zero exit code the
function raises with the subprocess diagnostics; otherwise it returns
the glob of `*.png` in the fresh frames directory — exactly the files
the decoder wrote — sorted by Python `sorted`. -/
def extrair_frames (runRes : Except String FfmpegOutcome) (tmpDir : String) :
    Except String (List String) :=
  match runRes with
  | Except.error e => Except.error e
  | Except.ok r =>
    if r.returncode ≠ 0 then
      Except.error ("Erro no ffmpeg: " ++ r.stderrText)
    else
      Except.ok (pySorted (r.producedFrames.map (framePath tmpDir)))

/-! ## The handler (`lambda_handler`, source lines 26-93) -/

/-- The module-level configuration read from the environment
(source lines 23-24). -/
structure Config where
  S3_BUCKET : Option String
  TABLE_NAME : Option String
  deriving DecidableEq

instance {ε α : Type} [DecidableEq ε] [DecidableEq α] : DecidableEq (Except ε α) := fun x y =>
  match x, y with
  | Except.ok a, Except.ok b =>
    if h : a = b then isTrue (by rw [h]) else isFalse (by simp [h])
  | Except.error a, Except.error b =>
    if h : a = b then isTrue (by rw [h]) else isFalse (by simp [h])
  | Except.ok _, Except.error _ => isFalse (by simp)
  | Except.error _, Except.ok _ => isFalse (by simp)

/-- Outcomes of the external calls the pipeline makes, in program order:
`time.strftime`, `tempfile.mkdtemp`, `uuid4().hex`, `table.put_item`,
the staging file write, `subprocess.run` of ffmpeg, the zip write,
`s3.upload_file` and `table.update_item`.  An `Except.error` carries the
`str(e)` of the exception the call raised. -/
structure PipeOracle where
  timestamp : String
  tmpDir : String
  uploadId : String
  putItemResult : Except String Unit
  saveResult : Except String Unit
  ffmpeg : Except String FfmpegOutcome
  zipResult : Except String Unit
  uploadResult : Except String Unit
  updateResult : Except String Unit
  deriving DecidableEq

/-- The full environment of one invocation: the pipeline outcomes plus
whether `shutil.rmtree` of the scratch directory succeeds. -/
structure Oracle where
  pipe : PipeOracle
  cleanupOk : Bool
  deriving DecidableEq

/-- The externally visible effects of one invocation, recorded in the
order they are performed. -/
inductive Effect
  | mkdtemp (dir : String)
  | putRecord (email uploadId status : String) (ok : Bool)
  | writeVideo (path : String) (ok : Bool)
  | runDecoder
  | writeZip (path : String) (ok : Bool)
  | s3Upload (bucket key : String) (ok : Bool)
  | updateRecord (email uploadId status s3Key : String) (frameCount : Nat) (ok : Bool)
  | removeTree (dir : String) (ok : Bool)
  deriving DecidableEq

/-- Whether an effect is a record-store insert (`put_item`). -/
def isPutEv : Effect → Bool
  | Effect.putRecord _ _ _ _ => true
  | _ => false

/-- Whether an effect is a record-store update (`update_item`). -/
def isUpdEv : Effect → Bool
  | Effect.updateRecord _ _ _ _ _ _ => true
  | _ => false

/-- Whether an external call succeeded. -/
def exceptOkB : Except String Unit → Bool
  | Except.ok _ => true
  | Except.error _ => false

/-- The status values the code ever writes to the record store. -/
inductive RecStatus
  | processando
  | concluido
  deriving DecidableEq

/-- The stored upload record for the invocation's (email, uploadId) key. -/
structure RecordRow where
  status : RecStatus
  s3_key : Option String
  frame_count : Option Nat
  deriving DecidableEq

/-- The JSON response body (`json.dumps` is elided: the dictionary is
modelled directly; absent keys are `none`). -/
structure ResponseBody where
  success : Bool
  message : String
  record_id : Option String := none
  s3_key : Option String := none
  frame_count : Option Nat := none
  images : Option (List String) := none
  deriving DecidableEq

/-- The handler's return value shape. -/
structure HttpResponse where
  statusCode : Nat
  body : ResponseBody
  deriving DecidableEq

/-- Models `responder` (source lines 216-221). -/
def responder (statusCode : Nat) (body : ResponseBody) : HttpResponse :=
  { statusCode := statusCode, body := body }

/-- The record row as it stands right after the successful initial
write: status `processando`, nothing else populated. -/
def processingRow : RecordRow :=
  { status := RecStatus.processando, s3_key := none, frame_count := none }

/-- The part of the `try` block after the staging write (source lines
66-87), branching on the result of `extrair_frames`, together with the
error handler of lines 89-91.  `tr1` is the effect trace accumulated so
far inside the block. -/
def processarFrames (o : PipeOracle) (bucket email record_id : String)
    (tr1 : List Effect) :
    Except String (List String) → HttpResponse × List Effect × Option RecordRow
  | Except.error e =>
    (responder 500 { success := false, message := "Erro interno: " ++ e }, tr1,
     some processingRow)
  | Except.ok frames =>
    if frames.isEmpty then
      (responder 500 { success := false, message := "Nenhum frame extraído do vídeo" },
       tr1, some processingRow)
    else
      let zip_nome := "frames_" ++ o.timestamp ++ ".zip"
      let zip_path := o.tmpDir ++ "/" ++ zip_nome
      match o.zipResult with
      | Except.error e =>
        (responder 500 { success := false, message := "Erro interno: " ++ e },
         tr1 ++ [Effect.writeZip zip_path false], some processingRow)
      | Except.ok _ =>
        let s3_key := "outputs/" ++ zip_nome
        match o.uploadResult with
        | Except.error e =>
          (responder 500 { success := false, message := "Erro interno: " ++ e },
           tr1 ++ [Effect.writeZip zip_path true, Effect.s3Upload bucket s3_key false],
           some processingRow)
        | Except.ok _ =>
          let tr2 := tr1 ++ [Effect.writeZip zip_path true, Effect.s3Upload bucket s3_key true]
          match o.updateResult with
          | Except.error e =>
            (responder 500 { success := false, message := "Erro interno: " ++ e },
             tr2 ++ [Effect.updateRecord email o.uploadId "Concluido" s3_key frames.length false],
             some processingRow)
          | Except.ok _ =>
            let imagens := frames.map basename
            (responder 200
               { success := true,
                 message := "Processamento concluído! " ++ toString frames.length ++ " frames extraídos.",
                 record_id := some record_id,
                 s3_key := some s3_key,
                 frame_count := some frames.length,
                 images := some imagens },
             tr2 ++ [Effect.updateRecord email o.uploadId "Concluido" s3_key frames.length true],
             some { status := RecStatus.concluido, s3_key := some s3_key,
                    frame_count := some frames.length })

/-- The body of the `try` block of lines 64-91 together with the error
handler of lines 89-91: the response, the effects performed, and the
final state of the upload record (which enters as `processando`). -/
def processar (o : PipeOracle) (bucket email nome_arquivo record_id : String) :
    HttpResponse × List Effect × Option RecordRow :=
  let video_path := o.tmpDir ++ "/" ++ o.timestamp ++ "_" ++ nome_arquivo
  match o.saveResult with
  | Except.error e =>
    (responder 500 { success := false, message := "Erro interno: " ++ e },
     [Effect.writeVideo video_path false], some processingRow)
  | Except.ok _ =>
    processarFrames o bucket email record_id
      [Effect.writeVideo video_path true, Effect.runDecoder]
      (extrair_frames o.ffmpeg o.tmpDir)

/-- The handler before the `finally` clause is accounted for:
`enteredTry` records whether control reached the `try`/`finally` block
of line 64 (the early returns of lines 38, 40, 45, 48 and — crucially —
the initial record-store failure return of line 62 never do).  `raised`
marks an invocation that ended in an exception the handler does not
catch (the parser's `AttributeError`): such an invocation produces no
HTTP response at all, and the `response` field then holds an inert
placeholder with the impossible status 0, distinguishable from every
response the code builds. -/
structure CoreOut where
  response : HttpResponse
  trace : List Effect
  record : Option RecordRow
  enteredTry : Bool
  raised : Bool := false

/-- Models `lambda_handler` up to the `finally` clause
(source lines 26-91). -/
def handlerCore (cfg : Config) (ev : Event) (o : PipeOracle) : CoreOut :=
  if pyFalsyOpt cfg.S3_BUCKET then
    { response := responder 500
        { success := false, message := "Variável de ambiente BUCKET não configurada" },
      trace := [], record := none, enteredTry := false }
  else if pyFalsyOpt cfg.TABLE_NAME then
    { response := responder 500
        { success := false, message := "Variável de ambiente TABLE não configurada" },
      trace := [], record := none, enteredTry := false }
  else
    match extrair_dados_requisicao ev with
    | Except.error (ParseFailure.malformed e) =>
      { response := responder 400 { success := false, message := parseErrorMessage e },
        trace := [], record := none, enteredTry := false }
    | Except.error ParseFailure.attributeError =>
      -- the AttributeError escapes the `except ValueError` of line 44:
      -- the invocation dies before any effect, producing no response
      { response := responder 0 { success := false, message := "" },
        trace := [], record := none, enteredTry := false, raised := true }
    | Except.ok (email, nome_arquivo, _arquivo_bytes) =>
      if validar_extensao nome_arquivo = false then
        { response := responder 400 { success := false, message := "Formato não suportado" },
          trace := [], record := none, enteredTry := false }
      else
        let tmp_dir := o.tmpDir
        let upload_id := o.uploadId
        let record_id := email ++ "_" ++ upload_id
        match o.putItemResult with
        | Except.error e =>
          { response := responder 500
              { success := false,
                message := "Erro ao gravar registro inicial no banco: " ++ e },
            trace := [Effect.mkdtemp tmp_dir,
                      Effect.putRecord email upload_id "processando" false],
            record := none, enteredTry := false }
        | Except.ok _ =>
          let pr := processar o (cfg.S3_BUCKET.getD "") email nome_arquivo record_id
          { response := pr.1,
            trace := [Effect.mkdtemp tmp_dir,
                      Effect.putRecord email upload_id "processando" true] ++ pr.2.1,
            record := pr.2.2, enteredTry := true }

/-- The result of one invocation: the response, the effect trace, the
final upload record, and whether the invocation instead died with an
uncaught exception (see `CoreOut.raised`). -/
structure RunResult where
  response : HttpResponse
  trace : List Effect
  record : Option RecordRow
  raised : Bool := false

/-- Models `lambda_handler` (source lines 26-93): the core run, with the
`finally` clause appending the best-effort `shutil.rmtree` of the
scratch directory whenever the `try` block was entered; a cleanup
failure is swallowed (`limpar_diretorio_temporario`, lines 209-213) and
is visible only as the `ok` flag of the recorded attempt. -/
def lambda_handler (cfg : Config) (ev : Event) (o : Oracle) : RunResult :=
  let c := handlerCore cfg ev o.pipe
  { response := c.response,
    trace := c.trace ++
      (if c.enteredTry then [Effect.removeTree o.pipe.tmpDir o.cleanupOk] else []),
    record := c.record,
    raised := c.raised }

/-! ## Lemmas about the base64 embedding -/

theorem b64Val_b64Char_fin : ∀ i : Fin 64, b64Val (b64Char i.val) = some i.val := by decide
theorem b64Char_ne_pad_fin : ∀ i : Fin 64, (b64Char i.val = '=') = False := by decide
theorem b64Val_b64Char_mod (n : Nat) : b64Val (b64Char (n % 64)) = some (n % 64) :=
  b64Val_b64Char_fin ⟨n % 64, Nat.mod_lt _ (by omega)⟩
theorem b64Char_mod_ne_pad (n : Nat) : ¬ b64Char (n % 64) = '=' := by
  have := b64Char_ne_pad_fin ⟨n % 64, Nat.mod_lt _ (by omega)⟩
  simp only [this]
  exact fun h => h

theorem decode_encode_loop : ∀ bs : List Nat, (∀ b ∈ bs, b < 256) →
    b64DecodeLoop (b64EncodeChunks bs) [] 0 = some bs := by
  intro bs
  induction bs using b64EncodeChunks.induct with
  | case1 => intro _; rfl
  | case2 b0 =>
    intro h
    have hb0 : b0 < 256 := h b0 (by simp)
    simp [b64EncodeChunks, b64DecodeLoop, b64Val_b64Char_mod,
      b64Char_mod_ne_pad, emitFinal]
    omega
  | case3 b0 b1 =>
    intro h
    have hb0 : b0 < 256 := h b0 (by simp)
    have hb1 : b1 < 256 := h b1 (by simp)
    simp [b64EncodeChunks, b64DecodeLoop, b64Val_b64Char_mod,
      b64Char_mod_ne_pad, emitFinal]
    omega
  | case4 b0 b1 b2 rest ih =>
    intro h
    have hb0 : b0 < 256 := h b0 (by simp)
    have hb1 : b1 < 256 := h b1 (by simp)
    have hb2 : b2 < 256 := h b2 (by simp)
    have hrest : ∀ b ∈ rest, b < 256 := fun b hb => h b (by simp [hb])
    simp [b64EncodeChunks, b64DecodeLoop, b64Val_b64Char_mod,
      b64Char_mod_ne_pad, ih hrest]
    omega

/-- The base64 round trip: decoding an encoded byte list gives back
exactly those bytes. -/
theorem b64_roundtrip (bs : List Nat) (h : ∀ b ∈ bs, b < 256) :
    b64Decode (b64Encode bs) = some bs := by
  unfold b64Decode b64Encode
  show b64DecodeLoop (b64EncodeChunks bs) [] 0 = some bs
  exact decode_encode_loop bs h

/-- A nonempty byte list encodes to a nonempty (hence truthy) string. -/
theorem b64Encode_ne_empty (bs : List Nat) (h : bs ≠ []) :
    (b64Encode bs == "") = false := by
  match bs with
  | [b0] => rfl
  | [b0, b1] => rfl
  | b0 :: b1 :: b2 :: rest => rfl



/-! ## Lemmas about the string order and the frame numbering -/

theorem charListLe_total : ∀ a b : List Char, charListLe a b = true ∨ charListLe b a = true
  | [], _ => Or.inl rfl
  | _ :: _, [] => Or.inr rfl
  | a :: as, b :: bs => by
    by_cases h1 : a.toNat < b.toNat
    · left; simp [charListLe, h1]
    · by_cases h2 : b.toNat < a.toNat
      · right; simp [charListLe, h2]
      · rcases charListLe_total as bs with h | h
        · left; simp [charListLe, h1, h2, h]
        · right; simp [charListLe, h1, h2, h]

theorem charListLe_trans : ∀ a b c : List Char,
    charListLe a b = true → charListLe b c = true → charListLe a c = true
  | [], _, _, _, _ => rfl
  | _ :: _, [], _, h1, _ => by simp [charListLe] at h1
  | _ :: _, _ :: _, [], _, h2 => by simp [charListLe] at h2
  | a :: as, b :: bs, c :: cs, h1, h2 => by
    by_cases hab : a.toNat < b.toNat
    · by_cases hbc : b.toNat < c.toNat
      · simp [charListLe, show a.toNat < c.toNat by omega]
      · by_cases hcb : c.toNat < b.toNat
        · rw [charListLe, if_neg hbc, if_pos hcb] at h2
          exact absurd h2 (by simp)
        · simp [charListLe, show a.toNat < c.toNat by omega]
    · by_cases hba : b.toNat < a.toNat
      · rw [charListLe, if_neg hab, if_pos hba] at h1
        exact absurd h1 (by simp)
      · rw [charListLe, if_neg hab, if_neg hba] at h1
        by_cases hbc : b.toNat < c.toNat
        · simp [charListLe, show a.toNat < c.toNat by omega]
        · by_cases hcb : c.toNat < b.toNat
          · rw [charListLe, if_neg hbc, if_pos hcb] at h2
            exact absurd h2 (by simp)
          · rw [charListLe, if_neg hbc, if_neg hcb] at h2
            simp [charListLe, show ¬ a.toNat < c.toNat by omega,
              show ¬ c.toNat < a.toNat by omega, charListLe_trans as bs cs h1 h2]

instance : IsTotal String strLeP :=
  ⟨fun a b => charListLe_total a.data b.data⟩

instance : IsTrans String strLeP :=
  ⟨fun a b c => charListLe_trans a.data b.data c.data⟩

theorem pySorted_sorted (l : List String) : List.Sorted strLeP (pySorted l) :=
  List.sorted_insertionSort strLeP l

theorem pySorted_of_sorted {l : List String} (h : List.Sorted strLeP l) :
    pySorted l = l :=
  h.insertionSort_eq

theorem digitChar_toNat_fin : ∀ d : Fin 10, (digitChar d.val).toNat = 48 + d.val := by
  decide

theorem charListLe_append_same : ∀ (p a b : List Char),
    charListLe (p ++ a) (p ++ b) = charListLe a b
  | [], _, _ => rfl
  | c :: p, a, b => by
    simp [charListLe, charListLe_append_same p a b]

/-- Four-digit zero-padded decimal strings compare lexicographically the
way their values compare, whatever follows them. -/
theorem pad4_append_le {i j : Nat} (hij : i < j) (hj : j ≤ 9999) (s t : List Char) :
    charListLe ((pad4 i).data ++ s) ((pad4 j).data ++ t) = true := by
  have hi' : i < 10000 := by omega
  have hj' : j < 10000 := by omega
  rw [pad4, if_pos hi', pad4, if_pos hj']
  have d1 : (digitChar (i / 1000)).toNat = 48 + i / 1000 :=
    digitChar_toNat_fin ⟨i / 1000, by omega⟩
  have d2 : (digitChar (i / 100 % 10)).toNat = 48 + i / 100 % 10 :=
    digitChar_toNat_fin ⟨i / 100 % 10, by omega⟩
  have d3 : (digitChar (i / 10 % 10)).toNat = 48 + i / 10 % 10 :=
    digitChar_toNat_fin ⟨i / 10 % 10, by omega⟩
  have d4 : (digitChar (i % 10)).toNat = 48 + i % 10 :=
    digitChar_toNat_fin ⟨i % 10, by omega⟩
  have e1 : (digitChar (j / 1000)).toNat = 48 + j / 1000 :=
    digitChar_toNat_fin ⟨j / 1000, by omega⟩
  have e2 : (digitChar (j / 100 % 10)).toNat = 48 + j / 100 % 10 :=
    digitChar_toNat_fin ⟨j / 100 % 10, by omega⟩
  have e3 : (digitChar (j / 10 % 10)).toNat = 48 + j / 10 % 10 :=
    digitChar_toNat_fin ⟨j / 10 % 10, by omega⟩
  have e4 : (digitChar (j % 10)).toNat = 48 + j % 10 :=
    digitChar_toNat_fin ⟨j % 10, by omega⟩
  show charListLe
    (digitChar (i / 1000) :: digitChar (i / 100 % 10) :: digitChar (i / 10 % 10) ::
      digitChar (i % 10) :: s)
    (digitChar (j / 1000) :: digitChar (j / 100 % 10) :: digitChar (j / 10 % 10) ::
      digitChar (j % 10) :: t) = true
  simp only [charListLe, d1, d2, d3, d4, e1, e2, e3, e4]
  split_ifs <;> first | rfl | omega

theorem framePath_le {tmpDir : String} {i j : Nat} (hij : i < j) (hj : j ≤ 9999) :
    strLe (framePath tmpDir i) (framePath tmpDir j) = true := by
  unfold strLe framePath framesDirOf frameFileName
  simp only [String.data_append, List.append_assoc]
  rw [charListLe_append_same, charListLe_append_same, charListLe_append_same]
  exact pad4_append_le hij hj _ _

theorem framePaths_sorted (tmpDir : String) (n : Nat) (hn : n ≤ 9999) :
    List.Sorted strLeP ((List.range' 1 n).map (framePath tmpDir)) := by
  rw [List.Sorted, List.pairwise_map]
  apply (List.pairwise_lt_range' 1 n).imp_of_mem
  intro a b ha hb hab
  have hb' : b ≤ 9999 := by
    have := List.mem_range'_1.mp hb
    omega
  exact framePath_le hab hb'

theorem extrair_frames_sorted {runRes : Except String FfmpegOutcome} {tmpDir : String}
    {frames : List String} (h : extrair_frames runRes tmpDir = Except.ok frames) :
    List.Sorted strLeP frames := by
  cases runRes with
  | error e => exact absurd h (by simp [extrair_frames])
  | ok r =>
    simp only [extrair_frames] at h
    by_cases hrc : r.returncode ≠ 0
    · rw [if_pos hrc] at h
      exact absurd h (by simp)
    · rw [if_neg hrc] at h
      simp only [Except.ok.injEq] at h
      rw [← h]
      exact pySorted_sorted _



/-! ## Claim theorems: validator and parser -/

/-- Claim C3: for every filename whose suffix, lowercased, is one of
mp4, avi, mov, mkv, wmv, flv, webm, the extension validator returns
true, and for every filename with any other suffix — or no suffix at
all, in which case `pathSuffix` is empty — it returns false. -/
theorem c3_extension_whitelist (fn : String) :
    validar_extensao fn = true ↔
      ∃ e ∈ (["mp4", "avi", "mov", "mkv", "wmv", "flv", "webm"] : List String),
        pyLower (pathSuffix fn) = "." ++ e := by
  unfold validar_extensao
  simp only [Bool.or_eq_true, beq_iff_eq]
  constructor
  · intro h
    rcases h with ((((((h | h) | h) | h) | h) | h) | h)
    · exact ⟨"mp4", by decide, h.trans (by decide)⟩
    · exact ⟨"avi", by decide, h.trans (by decide)⟩
    · exact ⟨"mov", by decide, h.trans (by decide)⟩
    · exact ⟨"mkv", by decide, h.trans (by decide)⟩
    · exact ⟨"wmv", by decide, h.trans (by decide)⟩
    · exact ⟨"flv", by decide, h.trans (by decide)⟩
    · exact ⟨"webm", by decide, h.trans (by decide)⟩
  · rintro ⟨e, he, h⟩
    simp only [List.mem_cons, List.not_mem_nil, or_false] at he
    rcases he with rfl | rfl | rfl | rfl | rfl | rfl | rfl
    · have h' : pyLower (pathSuffix fn) = ".mp4" := h.trans (by decide)
      simp [h']
    · have h' : pyLower (pathSuffix fn) = ".avi" := h.trans (by decide)
      simp [h']
    · have h' : pyLower (pathSuffix fn) = ".mov" := h.trans (by decide)
      simp [h']
    · have h' : pyLower (pathSuffix fn) = ".mkv" := h.trans (by decide)
      simp [h']
    · have h' : pyLower (pathSuffix fn) = ".wmv" := h.trans (by decide)
      simp [h']
    · have h' : pyLower (pathSuffix fn) = ".flv" := h.trans (by decide)
      simp [h']
    · have h' : pyLower (pathSuffix fn) = ".webm" := h.trans (by decide)
      simp [h']

/-- Claim C5: a non-multipart request whose JSON body carries non-empty
email and filename fields and the base64 encoding of a non-empty byte
sequence parses to exactly that triple — the base64 round trip. -/
theorem c5_json_roundtrip (ev : Event) (email nome : String) (bs : List Nat)
    (hct : isMultipartCT ev.contentType = false)
    (hview : ev.jsonView = some (JsonView.obj
      { email := some email, filename := some nome, arquivo := some (b64Encode bs) }))
    (he : email ≠ "") (hn : nome ≠ "") (hbs : bs ≠ []) (hb : ∀ b ∈ bs, b < 256) :
    extrair_dados_requisicao ev = Except.ok (email, nome, bs) := by
  unfold extrair_dados_requisicao
  simp only [hct, Bool.false_eq_true, if_false, hview]
  simp only [b64Encode_ne_empty bs hbs, Bool.false_eq_true, if_false,
    b64_roundtrip bs hb]
  simp only [checkRequired]
  rw [if_pos ⟨he, hn, hbs⟩]

theorem c5_witness :
    extrair_dados_requisicao
        { contentType := none,
          jsonView := some (JsonView.obj
            { email := some "u@x", filename := some "v.mp4",
              arquivo := some (b64Encode [104, 105]) }),
          multipartView := none } = Except.ok ("u@x", "v.mp4", [104, 105]) :=
  c5_json_roundtrip
    { contentType := none,
      jsonView := some (JsonView.obj
        { email := some "u@x", filename := some "v.mp4",
          arquivo := some (b64Encode [104, 105]) }),
      multipartView := none } "u@x" "v.mp4" [104, 105] (by decide) rfl (by decide)
    (by decide) (by decide) (by decide)

/-- Claim C7: a multipart request with one file part (truthy filename)
and one email part (no filename, name `email`) parses to the same
result whichever order the two parts appear in. -/
theorem c7_part_order (ev1 ev2 : Event) (p q : Part)
    (h1 : isMultipartCT ev1.contentType = true)
    (h2 : isMultipartCT ev2.contentType = true)
    (hv1 : ev1.multipartView = some [p, q])
    (hv2 : ev2.multipartView = some [q, p])
    (hp : pyTruthyOpt p.filename = true)
    (hqf : pyTruthyOpt q.filename = false)
    (hqn : q.name = some "email") :
    extrair_dados_requisicao ev1 = extrair_dados_requisicao ev2 := by
  unfold extrair_dados_requisicao
  simp only [h1, h2, if_true, hv1, hv2]
  simp [List.foldl, processPart, hp, hqf, hqn]

theorem c7_witness :
    extrair_dados_requisicao
        { contentType := some "multipart/form-data; boundary=x",
          jsonView := none,
          multipartView := some
            [{ name := some "file", filename := some "v.mp4", payload := [1, 2] },
             { name := some "email", filename := none, payload := [117] }] } =
      extrair_dados_requisicao
        { contentType := some "multipart/form-data; boundary=x",
          jsonView := none,
          multipartView := some
            [{ name := some "email", filename := none, payload := [117] },
             { name := some "file", filename := some "v.mp4", payload := [1, 2] }] } :=
  c7_part_order
    { contentType := some "multipart/form-data; boundary=x", jsonView := none,
      multipartView := some
        [{ name := some "file", filename := some "v.mp4", payload := [1, 2] },
         { name := some "email", filename := none, payload := [117] }] }
    { contentType := some "multipart/form-data; boundary=x", jsonView := none,
      multipartView := some
        [{ name := some "email", filename := none, payload := [117] },
         { name := some "file", filename := some "v.mp4", payload := [1, 2] }] }
    { name := some "file", filename := some "v.mp4", payload := [1, 2] }
    { name := some "email", filename := none, payload := [117] }
    (by decide) (by decide) rfl rfl (by decide) (by decide) rfl



/-! ## Claim theorems: handler -/

/-- Shared concrete inputs for witnesses and counterexamples. -/
def cfgRun : Config := { S3_BUCKET := some "bkt", TABLE_NAME := some "tbl" }

def evRun : Event :=
  { contentType := none,
    jsonView := some (JsonView.obj
      { email := some "u@x", filename := some "v.mp4", arquivo := some "AA==" }),
    multipartView := none }

def pipeRun : PipeOracle :=
  { timestamp := "20240101_000000", tmpDir := "/tmp/proc_x", uploadId := "abc",
    putItemResult := Except.ok (), saveResult := Except.ok (),
    ffmpeg := Except.ok { returncode := 0, stderrText := "", producedFrames := [1, 2] },
    zipResult := Except.ok (), uploadResult := Except.ok (),
    updateResult := Except.ok () }

/-- Claim C8: a falsy bucket or table configuration yields an immediate
500 with no effect whatsoever: empty trace and no record touched. -/
theorem c8_missing_config (cfg : Config) (ev : Event) (o : Oracle)
    (h : pyFalsyOpt cfg.S3_BUCKET = true ∨ pyFalsyOpt cfg.TABLE_NAME = true) :
    (lambda_handler cfg ev o).response.statusCode = 500 ∧
    (lambda_handler cfg ev o).response.body.success = false ∧
    (lambda_handler cfg ev o).trace = [] ∧
    (lambda_handler cfg ev o).record = none := by
  unfold lambda_handler handlerCore
  rcases h with h | h
  · simp [h, responder]
  · cases hb : pyFalsyOpt cfg.S3_BUCKET
    · simp [hb, h, responder]
    · simp [hb, responder]

theorem c8_witness :
    (pyFalsyOpt (Config.mk none (some "tbl")).S3_BUCKET = true ∨
      pyFalsyOpt (Config.mk none (some "tbl")).TABLE_NAME = true) ∧
    (lambda_handler (Config.mk none (some "tbl")) evRun
        { pipe := pipeRun, cleanupOk := true }).response.statusCode = 500 ∧
    (lambda_handler (Config.mk none (some "tbl")) evRun
        { pipe := pipeRun, cleanupOk := true }).response.body.success = false ∧
    (lambda_handler (Config.mk none (some "tbl")) evRun
        { pipe := pipeRun, cleanupOk := true }).trace = [] ∧
    (lambda_handler (Config.mk none (some "tbl")) evRun
        { pipe := pipeRun, cleanupOk := true }).record = none :=
  ⟨Or.inl (by decide),
   c8_missing_config (Config.mk none (some "tbl")) evRun
     { pipe := pipeRun, cleanupOk := true } (Or.inl (by decide))⟩

/-- The three possible shapes of a core run: no effects at all (early
return), the leaking initial-write-failure return, or a fully entered
`try` block. -/
theorem handlerCore_shape (cfg : Config) (ev : Event) (o : PipeOracle) :
    ((handlerCore cfg ev o).enteredTry = false ∧ (handlerCore cfg ev o).trace = []) ∨
    ((handlerCore cfg ev o).enteredTry = false ∧ ∃ email e,
        o.putItemResult = Except.error e ∧
        (handlerCore cfg ev o).trace =
          [Effect.mkdtemp o.tmpDir, Effect.putRecord email o.uploadId "processando" false]) ∨
    ((handlerCore cfg ev o).enteredTry = true ∧ o.putItemResult = Except.ok () ∧
      ∃ email nome bs,
        extrair_dados_requisicao ev = Except.ok (email, nome, bs) ∧
        (handlerCore cfg ev o).trace =
          [Effect.mkdtemp o.tmpDir, Effect.putRecord email o.uploadId "processando" true] ++
            (processar o (cfg.S3_BUCKET.getD "") email nome (email ++ "_" ++ o.uploadId)).2.1) := by
  cases hb : pyFalsyOpt cfg.S3_BUCKET with
  | true => left; simp [handlerCore, hb]
  | false =>
    cases ht : pyFalsyOpt cfg.TABLE_NAME with
    | true => left; simp [handlerCore, hb, ht]
    | false =>
      cases hpr : extrair_dados_requisicao ev with
      | error e => left; cases e <;> simp [handlerCore, hb, ht, hpr]
      | ok t =>
        obtain ⟨email, nome, bs⟩ := t
        cases hv : validar_extensao nome with
        | false => left; simp [handlerCore, hb, ht, hpr, hv]
        | true =>
          cases hput : o.putItemResult with
          | error e =>
            right; left
            refine ⟨by simp [handlerCore, hb, ht, hpr, hv, hput], email, e, rfl,
              by simp [handlerCore, hb, ht, hpr, hv, hput]⟩
          | ok u =>
            right; right
            exact ⟨by simp [handlerCore, hb, ht, hpr, hv, hput], rfl,
              email, nome, bs, rfl,
              by simp [handlerCore, hb, ht, hpr, hv, hput]⟩

/-- Claim C1, amended: after the scratch directory is created, a
best-effort cleanup attempt is recorded on every exit path on which the
initial record-store write succeeded — but on the one exit path where
that write fails the handler returns without cleanup (the directory
leaks); and the cleanup outcome never changes the response. -/
theorem c1_cleanup_amended (cfg : Config) (ev : Event) (o : Oracle) :
    ((Effect.removeTree o.pipe.tmpDir o.cleanupOk ∈ (lambda_handler cfg ev o).trace) ↔
      (Effect.mkdtemp o.pipe.tmpDir ∈ (lambda_handler cfg ev o).trace ∧
        o.pipe.putItemResult = Except.ok ())) ∧
    (∀ b1 b2 : Bool,
      (lambda_handler cfg ev { pipe := o.pipe, cleanupOk := b1 }).response =
        (lambda_handler cfg ev { pipe := o.pipe, cleanupOk := b2 }).response) := by
  refine ⟨?_, fun b1 b2 => rfl⟩
  simp only [lambda_handler]
  rcases handlerCore_shape cfg ev o.pipe with ⟨he, htr⟩ |
    ⟨he, email, e, hput, htr⟩ | ⟨he, hput, email, nome, bs, hpr, htr⟩
  · rw [htr, he]
    simp
  · rw [htr, he]
    simp [hput]
  · rw [htr, he]
    simp [hput, List.mem_append]

/-- Claim C1, counterexample: with a failing initial record-store write,
the scratch directory is created but never removed. -/
def pipePutFail : PipeOracle :=
  { pipeRun with putItemResult := Except.error "boom" }

theorem c1_counterexample :
    Effect.mkdtemp "/tmp/proc_x" ∈
      (lambda_handler cfgRun evRun { pipe := pipePutFail, cleanupOk := true }).trace ∧
    ∀ b : Bool, Effect.removeTree "/tmp/proc_x" b ∉
      (lambda_handler cfgRun evRun { pipe := pipePutFail, cleanupOk := true }).trace := by
  have h : (lambda_handler cfgRun evRun { pipe := pipePutFail, cleanupOk := true }).trace =
      [Effect.mkdtemp "/tmp/proc_x",
       Effect.putRecord "u@x" "abc" "processando" false] := by decide
  rw [h]
  refine ⟨by simp, fun b => by simp⟩



/-- Claim C2: once configuration and validation pass, exactly one
record-store insert is attempted, with status `processando`; updates
are at most one, always to `Concluido` with key and frame count set,
and only after a successful archive upload; on every non-200 outcome
the stored record is either absent (insert failed) or still the pristine
`processando` row; and a `Concluido` record occurs only on a 200
response with both fields populated. -/
theorem c2_record_lifecycle (cfg : Config) (ev : Event) (o : Oracle)
    (email nome : String) (bs : List Nat)
    (hb : pyFalsyOpt cfg.S3_BUCKET = false)
    (ht : pyFalsyOpt cfg.TABLE_NAME = false)
    (hpr : extrair_dados_requisicao ev = Except.ok (email, nome, bs))
    (hv : validar_extensao nome = true) :
    ((lambda_handler cfg ev o).trace.filter isPutEv =
       [Effect.putRecord email o.pipe.uploadId "processando"
          (exceptOkB o.pipe.putItemResult)]) ∧
    ((lambda_handler cfg ev o).trace.filter isUpdEv = [] ∨
      ∃ k fc okb,
        (lambda_handler cfg ev o).trace.filter isUpdEv =
          [Effect.updateRecord email o.pipe.uploadId "Concluido" k fc okb] ∧
        Effect.s3Upload (cfg.S3_BUCKET.getD "") k true ∈ (lambda_handler cfg ev o).trace) ∧
    ((lambda_handler cfg ev o).response.statusCode ≠ 200 →
      (lambda_handler cfg ev o).record = none ∨
      (lambda_handler cfg ev o).record = some processingRow) ∧
    (∀ row, (lambda_handler cfg ev o).record = some row →
      row.status = RecStatus.concluido →
      (lambda_handler cfg ev o).response.statusCode = 200 ∧
      row.s3_key.isSome = true ∧ row.frame_count.isSome = true) := by
  simp only [lambda_handler, handlerCore, hb, ht, hpr, hv]
  simp only [if_neg (show ¬(true = false) by decide)]
  cases hput : o.pipe.putItemResult with
  | error e =>
    simp [isPutEv, isUpdEv, exceptOkB, responder]
  | ok u =>
    unfold processar
    cases hsave : o.pipe.saveResult with
    | error e =>
      simp [isPutEv, isUpdEv, exceptOkB, responder, processingRow]
    | ok u2 =>
      cases hfr : extrair_frames o.pipe.ffmpeg o.pipe.tmpDir with
      | error e =>
        simp [processarFrames, isPutEv, isUpdEv, exceptOkB, responder, processingRow]
      | ok frames =>
        simp only [processarFrames]
        cases hemp : frames.isEmpty with
        | true =>
          simp [isPutEv, isUpdEv, exceptOkB, responder, processingRow]
        | false =>
          simp only [Bool.false_eq_true, if_false]
          cases hzip : o.pipe.zipResult with
          | error e =>
            simp [isPutEv, isUpdEv, exceptOkB, responder, processingRow]
          | ok u3 =>
            cases hup : o.pipe.uploadResult with
            | error e =>
              simp [isPutEv, isUpdEv, exceptOkB, responder, processingRow]
            | ok u4 =>
              cases hupd : o.pipe.updateResult with
              | error e =>
                refine ⟨by simp [isPutEv, exceptOkB], ?_, ?_, ?_⟩
                · refine Or.inr ⟨"outputs/" ++ ("frames_" ++ o.pipe.timestamp ++ ".zip"),
                    frames.length, false, by simp [isUpdEv], by simp⟩
                · intro _
                  simp [processingRow]
                · intro row hrow hst
                  simp [processingRow] at hrow
                  rw [← hrow] at hst
                  exact absurd hst (by simp [processingRow])
              | ok u5 =>
                refine ⟨by simp [isPutEv, exceptOkB], ?_, ?_, ?_⟩
                · refine Or.inr ⟨"outputs/" ++ ("frames_" ++ o.pipe.timestamp ++ ".zip"),
                    frames.length, true, by simp [isUpdEv], by simp⟩
                · intro hne
                  exact absurd (by simp [responder]) hne
                · intro row hrow hst
                  simp only [Option.some.injEq] at hrow
                  rw [← hrow]
                  exact ⟨by simp [responder], by simp, by simp⟩



/-- Claim C10: every 200 response carries exactly the basenames of the
extracted frame list in extraction order, its length as `frame_count`, a
`record_id` of `email_uploadId`, and an `s3_key` under `outputs/`. -/
theorem c10_success_fields (cfg : Config) (ev : Event) (o : Oracle)
    (h : (lambda_handler cfg ev o).response.statusCode = 200) :
    ∃ email nome bs frames,
      extrair_dados_requisicao ev = Except.ok (email, nome, bs) ∧
      extrair_frames o.pipe.ffmpeg o.pipe.tmpDir = Except.ok frames ∧
      (lambda_handler cfg ev o).response.body.images = some (frames.map basename) ∧
      (lambda_handler cfg ev o).response.body.frame_count = some frames.length ∧
      (lambda_handler cfg ev o).response.body.record_id =
        some (email ++ "_" ++ o.pipe.uploadId) ∧
      ∃ rest, (lambda_handler cfg ev o).response.body.s3_key =
        some ("outputs/" ++ rest) := by
  cases hb : pyFalsyOpt cfg.S3_BUCKET with
  | true => exact absurd h (by simp [lambda_handler, handlerCore, hb, responder])
  | false =>
  cases ht : pyFalsyOpt cfg.TABLE_NAME with
  | true => exact absurd h (by simp [lambda_handler, handlerCore, hb, ht, responder])
  | false =>
  cases hpr : extrair_dados_requisicao ev with
  | error e =>
    cases e <;>
      exact absurd h (by simp [lambda_handler, handlerCore, hb, ht, hpr, responder])
  | ok t =>
  obtain ⟨email, nome, bs⟩ := t
  cases hv : validar_extensao nome with
  | false =>
    exact absurd h (by simp [lambda_handler, handlerCore, hb, ht, hpr, hv, responder])
  | true =>
  simp only [lambda_handler, handlerCore, hb, ht, hpr, hv] at h
  cases hput : o.pipe.putItemResult with
  | error e => rw [hput] at h; simp [responder] at h
  | ok u =>
  rw [hput] at h
  simp only [processar] at h
  cases hsave : o.pipe.saveResult with
  | error e => rw [hsave] at h; simp [responder] at h
  | ok u2 =>
  rw [hsave] at h
  cases hfr : extrair_frames o.pipe.ffmpeg o.pipe.tmpDir with
  | error e => rw [hfr] at h; simp [processarFrames, responder] at h
  | ok frames =>
  rw [hfr] at h
  simp only [processarFrames] at h
  cases frames with
  | nil => simp [responder] at h
  | cons f fs =>
  cases hzip : o.pipe.zipResult with
  | error e => rw [hzip] at h; simp [responder] at h
  | ok u3 =>
  rw [hzip] at h
  cases hup : o.pipe.uploadResult with
  | error e => rw [hup] at h; simp [responder] at h
  | ok u4 =>
  rw [hup] at h
  cases hupd : o.pipe.updateResult with
  | error e => rw [hupd] at h; simp [responder] at h
  | ok u5 =>
  refine ⟨email, nome, bs, f :: fs, rfl, rfl, ?_, ?_, ?_,
    "frames_" ++ o.pipe.timestamp ++ ".zip", ?_⟩ <;>
    simp [lambda_handler, handlerCore, hb, ht, hpr, hv, hput, hsave, hfr, hzip,
      hup, hupd, processar, processarFrames, responder]

theorem c10_witness :
    (lambda_handler cfgRun evRun
        { pipe := pipeRun, cleanupOk := true }).response.statusCode = 200 ∧
    (∃ email nome bs frames,
      extrair_dados_requisicao evRun = Except.ok (email, nome, bs) ∧
      extrair_frames pipeRun.ffmpeg pipeRun.tmpDir = Except.ok frames ∧
      (lambda_handler cfgRun evRun
          { pipe := pipeRun, cleanupOk := true }).response.body.images =
        some (frames.map basename) ∧
      (lambda_handler cfgRun evRun
          { pipe := pipeRun, cleanupOk := true }).response.body.frame_count =
        some frames.length ∧
      (lambda_handler cfgRun evRun
          { pipe := pipeRun, cleanupOk := true }).response.body.record_id =
        some (email ++ "_" ++ pipeRun.uploadId) ∧
      ∃ rest,
        (lambda_handler cfgRun evRun
            { pipe := pipeRun, cleanupOk := true }).response.body.s3_key =
          some ("outputs/" ++ rest)) :=
  ⟨by decide, c10_success_fields cfgRun evRun { pipe := pipeRun, cleanupOk := true }
    (by decide)⟩

/-- Claim C9, amended: a successful decoder run always yields a
lexicographically sorted frame list, and that order coincides with
increasing numeric sequence order provided the frame numbers do not
exceed 9999 (the zero-padding width). -/
theorem c9_frames_sorted_amended (r : FfmpegOutcome) (tmpDir : String) (n : Nat) :
    (∀ frames, extrair_frames (Except.ok r) tmpDir = Except.ok frames →
       List.Sorted strLeP frames) ∧
    (r.returncode = 0 → r.producedFrames = List.range' 1 n → n ≤ 9999 →
      extrair_frames (Except.ok r) tmpDir =
        Except.ok ((List.range' 1 n).map (framePath tmpDir))) := by
  constructor
  · intro frames h
    exact extrair_frames_sorted h
  · intro hrc hprod hn
    simp only [extrair_frames, hrc]
    rw [if_neg (by simp)]
    rw [hprod]
    exact congrArg Except.ok (pySorted_of_sorted (framePaths_sorted tmpDir n hn))

theorem c9_witness :
    ((0 : Int) = 0 ∧ (List.range' 1 2 : List Nat) = List.range' 1 2 ∧ 2 ≤ 9999) ∧
    extrair_frames
        (Except.ok { returncode := 0, stderrText := "",
                     producedFrames := List.range' 1 2 }) "/t" =
      Except.ok ((List.range' 1 2).map (framePath "/t")) :=
  ⟨⟨rfl, rfl, by omega⟩,
   (c9_frames_sorted_amended
      { returncode := 0, stderrText := "", producedFrames := List.range' 1 2 }
      "/t" 2).2 rfl rfl (by omega)⟩

/-- Claim C9, counterexample: with 10000 frames the decoder's
lexicographically sorted output does not coincide with numeric sequence
order (`frame_10000.png` sorts before `frame_9999.png`). -/
theorem c9_counterexample :
    extrair_frames
        (Except.ok { returncode := 0, stderrText := "",
                     producedFrames := List.range' 1 10000 }) "/tmp/proc_x"
      ≠ Except.ok ((List.range' 1 10000).map (framePath "/tmp/proc_x")) := by
  intro h
  have hs : List.Sorted strLeP ((List.range' 1 10000).map (framePath "/tmp/proc_x")) :=
    extrair_frames_sorted h
  have h1 := List.range'_append_1 1 9998 2
  have hsplit : List.range' 1 10000 = List.range' 1 9998 ++ [9999, 10000] := by
    norm_num at h1
    rw [← h1]
    rfl
  rw [hsplit, List.map_append] at hs
  have h2 := (List.pairwise_append.mp hs).2.1
  simp only [List.map_cons, List.map_nil, List.pairwise_cons] at h2
  have h3 : strLeP (framePath "/tmp/proc_x" 9999) (framePath "/tmp/proc_x" 10000) :=
    h2.1 _ (by simp)
  exact absurd h3 (by decide)



theorem c2_witness :
    (pyFalsyOpt cfgRun.S3_BUCKET = false ∧ pyFalsyOpt cfgRun.TABLE_NAME = false ∧
      extrair_dados_requisicao evRun = Except.ok ("u@x", "v.mp4", [0]) ∧
      validar_extensao "v.mp4" = true) ∧
    (((lambda_handler cfgRun evRun
          { pipe := pipeRun, cleanupOk := true }).trace.filter isPutEv =
        [Effect.putRecord "u@x" pipeRun.uploadId "processando"
           (exceptOkB pipeRun.putItemResult)]) ∧
      ((lambda_handler cfgRun evRun
           { pipe := pipeRun, cleanupOk := true }).trace.filter isUpdEv = [] ∨
        ∃ k fc okb,
          (lambda_handler cfgRun evRun
              { pipe := pipeRun, cleanupOk := true }).trace.filter isUpdEv =
            [Effect.updateRecord "u@x" pipeRun.uploadId "Concluido" k fc okb] ∧
          Effect.s3Upload (cfgRun.S3_BUCKET.getD "") k true ∈
            (lambda_handler cfgRun evRun { pipe := pipeRun, cleanupOk := true }).trace) ∧
      ((lambda_handler cfgRun evRun
           { pipe := pipeRun, cleanupOk := true }).response.statusCode ≠ 200 →
        (lambda_handler cfgRun evRun { pipe := pipeRun, cleanupOk := true }).record = none ∨
        (lambda_handler cfgRun evRun { pipe := pipeRun, cleanupOk := true }).record =
          some processingRow) ∧
      (∀ row,
        (lambda_handler cfgRun evRun { pipe := pipeRun, cleanupOk := true }).record =
          some row →
        row.status = RecStatus.concluido →
        (lambda_handler cfgRun evRun
            { pipe := pipeRun, cleanupOk := true }).response.statusCode = 200 ∧
        row.s3_key.isSome = true ∧ row.frame_count.isSome = true)) :=
  ⟨⟨by decide, by decide, by decide, by decide⟩,
   c2_record_lifecycle cfgRun evRun { pipe := pipeRun, cleanupOk := true }
     "u@x" "v.mp4" [0] (by decide) (by decide) (by decide) (by decide)⟩


end UploadLambda
